import Mathlib

/-!
Shallow embedding of the emergency-claim A2A workflow (src/types.ts).

The repository is a single React component file.  The verification targets
the state-bearing core: the `WorkflowStep` / `DamageReport` / `HandshakeLog` /
`ClaimResult` data model, the `performA2AHandshake` protocol function, the
`handleFileUpload` controller and `resetWorkflow`.  External effects are made
explicit parameters:

* `clock : ℕ → String` models `new Date().toLocaleTimeString()` — the i-th
  appended log entry is stamped with `clock i`;
* `token : String` models the random token
  `Math.random().toString(36).substr(2, 9).toUpperCase()` drawn when the
  `ClaimResult` is built;
* the Gemini vision call `analyzeDamage` lives in `services/geminiService`
  (an external collaborator); its single outcome is passed to
  `handleFileUpload` as an `Except String DamageReport`;
* the `alert(...)` call is returned as a list of emitted alert messages.

React `useState` setters become explicit state passing on `SessionState`.
-/

namespace EmergencyClaim

/-- `WorkflowStep` enum from src/types.ts. -/
inductive WorkflowStep where
  | IDLE
  | UPLOADING
  | GEMINI_ANALYSIS
  | A2A_HANDSHAKE
  | COMPLETED
  deriving DecidableEq, Repr

/-- The four-level severity scale of `DamageReport.intensity`. -/
inductive Intensity where
  | Low
  | Moderate
  | Severe
  | Catastrophic
  deriving DecidableEq, Repr

/-- `DamageReport` interface from src/types.ts.  `estimatedCost : number`
is embedded as `ℚ`. -/
structure DamageReport where
  intensity : Intensity
  estimatedCost : ℚ
  identifiedItems : List String
  summary : String
  structuralIntegrityRisk : Bool
  deriving DecidableEq, Repr

/-- The two fixed agent identities `'GoogleAgent' | 'SalesforceAgent'`. -/
inductive Agent where
  | GoogleAgent
  | SalesforceAgent
  deriving DecidableEq, Repr

/-- The protocol tag `'A2A' | 'AP2'` of a log entry. -/
inductive Protocol where
  | A2A
  | AP2
  deriving DecidableEq, Repr

/-- The status field `'SENT' | 'RECEIVED' | 'PROCESSED'` of a log entry. -/
inductive LogStatus where
  | SENT
  | RECEIVED
  | PROCESSED
  deriving DecidableEq, Repr

/-- The three concrete payload shapes that `performA2AHandshake` builds
(the TS type is `any`; only these three object literals occur). -/
inductive Payload where
  | proposeClaim (assessment : DamageReport) (agent_version : String)
  | evaluatePolicy (result : String) (threshold_applied : String)
  | initiatePayment (amount : ℚ) (currency : String) (settlement_network : String)
  deriving DecidableEq, Repr

/-- `HandshakeLog` interface from src/types.ts.  The TS field `from` is a
Lean keyword, so the two agent fields are named `fromAgent` / `toAgent`. -/
structure HandshakeLog where
  timestamp : String
  fromAgent : Agent
  toAgent : Agent
  protocol : Protocol
  payload : Payload
  status : LogStatus
  deriving DecidableEq, Repr

/-- `ClaimResult.status` values `'APPROVED' | 'MANUAL_REVIEW'`. -/
inductive ClaimStatus where
  | APPROVED
  | MANUAL_REVIEW
  deriving DecidableEq, Repr

/-- `ClaimResult` interface from src/types.ts. -/
structure ClaimResult where
  status : ClaimStatus
  paymentInitiated : Bool
  referenceId : String
  report : DamageReport
  deriving DecidableEq, Repr

/-- The React state of the `App` component: `step`, `report`, `logs`,
`result`, `previewUrl`. -/
structure SessionState where
  step : WorkflowStep
  report : Option DamageReport
  logs : List HandshakeLog
  result : Option ClaimResult
  previewUrl : Option String
  deriving DecidableEq, Repr

/-- `const APPROVAL_THRESHOLD = 5000`. -/
def APPROVAL_THRESHOLD : ℚ := 5000

/-- `const isApproved = report.estimatedCost < APPROVAL_THRESHOLD`. -/
def isApproved (report : DamageReport) : Bool :=
  decide (report.estimatedCost < APPROVAL_THRESHOLD)

/-- Step 1 of `performA2AHandshake`: the PROPOSE_CLAIM entry. -/
def proposalLog (report : DamageReport) (timestamp : String) : HandshakeLog :=
  { timestamp := timestamp
    fromAgent := .GoogleAgent
    toAgent := .SalesforceAgent
    protocol := .A2A
    status := .SENT
    payload := .proposeClaim report "Gemini-3-Pro-Handshake-V1" }

/-- Step 2 of `performA2AHandshake`: the EVALUATE_POLICY entry. -/
def evaluationLog (report : DamageReport) (timestamp : String) : HandshakeLog :=
  { timestamp := timestamp
    fromAgent := .SalesforceAgent
    toAgent := .GoogleAgent
    protocol := .A2A
    status := .PROCESSED
    payload := .evaluatePolicy
      (if isApproved report then "AUTO_APPROVE" else "REQUIRE_MANUAL_REVIEW")
      ("$" ++ toString APPROVAL_THRESHOLD) }

/-- Step 3 of `performA2AHandshake`: the conditional INITIATE_PAYMENT entry. -/
def settlementLog (report : DamageReport) (timestamp : String) : HandshakeLog :=
  { timestamp := timestamp
    fromAgent := .SalesforceAgent
    toAgent := .SalesforceAgent
    protocol := .AP2
    status := .SENT
    payload := .initiatePayment report.estimatedCost "USD" "FED_INSTANT_SETTLEMENT" }

/-- The sequence of entries one run of `performA2AHandshake` appends via
`addLog`, in emission order; `clock i` stamps the i-th entry. -/
def handshakeLogs (report : DamageReport) (clock : ℕ → String) : List HandshakeLog :=
  proposalLog report (clock 0) :: evaluationLog report (clock 1) ::
    (if isApproved report then [settlementLog report (clock 2)] else [])

/-- `referenceId = CLM-` followed by the random token. -/
def mkReferenceId (token : String) : String :=
  "CLM-" ++ token

/-- The `ClaimResult` object literal built by `setResult` at the end of
`performA2AHandshake`. -/
def mkClaimResult (report : DamageReport) (token : String) : ClaimResult :=
  { status := if isApproved report then .APPROVED else .MANUAL_REVIEW
    paymentInitiated := isApproved report
    referenceId := mkReferenceId token
    report := report }

/-- `performA2AHandshake(report)`: appends the handshake entries to the
transcript (`addLog` appends to `prev`), stores the `ClaimResult` and moves
the step to COMPLETED. -/
def performA2AHandshake (report : DamageReport) (clock : ℕ → String)
    (token : String) (s : SessionState) : SessionState :=
  { s with
    logs := s.logs ++ handshakeLogs report clock
    result := some (mkClaimResult report token)
    step := .COMPLETED }

/-- `resetWorkflow()`: everything back to the initial values. -/
def resetWorkflow (_s : SessionState) : SessionState :=
  { step := .IDLE
    report := none
    logs := []
    result := none
    previewUrl := none }

/-- The message passed to `alert(...)` when `analyzeDamage` fails. -/
def verificationFailedAlert : String :=
  "Verification failed. Please ensure the image/video clearly shows the damage."

/-- `handleFileUpload`: `file` is the selected file's data URL (none when no
file was chosen — the `if (!file) return` branch); `analysis` is the single
outcome of the `analyzeDamage` gateway call.  Returns the final state and the
alerts raised.  On failure the step is set back to IDLE and `report`, `logs`,
`result` are left untouched; on success `performA2AHandshake` runs. -/
def handleFileUpload (file : Option String) (analysis : Except String DamageReport)
    (clock : ℕ → String) (token : String) (s : SessionState) :
    SessionState × List String :=
  match file with
  | none => (s, [])
  | some dataUrl =>
    let s1 : SessionState := { s with step := .UPLOADING, previewUrl := some dataUrl }
    match analysis with
    | .error _ =>
      ({ s1 with step := .IDLE }, [verificationFailedAlert])
    | .ok damageReport =>
      let s2 : SessionState :=
        { s1 with step := .A2A_HANDSHAKE, report := some damageReport }
      (performA2AHandshake damageReport clock token s2, [])

/-- An upload attempt at the UI level: the file input only exists while the
upload area is rendered, and `App` renders it only when
`step === WorkflowStep.IDLE`; in any other step the attempt reaches no
handler and the state is unchanged. -/
def attemptUpload (file : Option String) (analysis : Except String DamageReport)
    (clock : ℕ → String) (token : String) (s : SessionState) :
    SessionState × List String :=
  if s.step = .IDLE then handleFileUpload file analysis clock token s else (s, [])

/-- The opposite of one of the two agent identities. -/
def otherAgent : Agent → Agent
  | .GoogleAgent => .SalesforceAgent
  | .SalesforceAgent => .GoogleAgent

/-- Fixed clock used for witnesses. -/
def clock0 : ℕ → String := fun _ => "10:00:00"

/-- A report below the threshold (the spec's 3200 scenario). -/
def reportA : DamageReport :=
  { intensity := .Moderate
    estimatedCost := 3200
    identifiedItems := ["roof", "drywall"]
    summary := "Moderate flood damage"
    structuralIntegrityRisk := false }

/-- A report exactly at the threshold (the spec's 5000 boundary scenario). -/
def reportB : DamageReport :=
  { intensity := .Severe
    estimatedCost := 5000
    identifiedItems := ["foundation"]
    summary := "Severe flood damage"
    structuralIntegrityRisk := true }

/-- A report above the threshold (the spec's 12000 scenario). -/
def reportC : DamageReport :=
  { intensity := .Catastrophic
    estimatedCost := 12000
    identifiedItems := []
    summary := "Catastrophic flood damage"
    structuralIntegrityRisk := true }

/-- The fresh session state (all `useState` initial values). -/
def state0 : SessionState :=
  { step := .IDLE
    report := none
    logs := []
    result := none
    previewUrl := none }

/-- Variant of `reportA` with the same `estimatedCost` but every other
field different. -/
def reportA2 : DamageReport :=
  { intensity := .Catastrophic
    estimatedCost := 3200
    identifiedItems := ["vehicle"]
    summary := "Different narrative, same cost"
    structuralIntegrityRisk := true }

/-- A completed session, used as a concrete non-IDLE state. -/
def stateCompleted : SessionState :=
  performA2AHandshake reportA clock0 "TOKEN0000" state0

/-- C1: the `ClaimResult.status` produced by `performA2AHandshake` is
APPROVED iff `report.estimatedCost` is strictly below the 5000 threshold;
a cost exactly equal to the threshold yields MANUAL_REVIEW. -/
theorem approved_iff_cost_below_threshold (r : DamageReport)
    (clock : ℕ → String) (token : String) (s : SessionState) :
    ((performA2AHandshake r clock token s).result.map ClaimResult.status
        = some .APPROVED ↔ r.estimatedCost < APPROVAL_THRESHOLD)
    ∧ (r.estimatedCost = APPROVAL_THRESHOLD →
        (performA2AHandshake r clock token s).result.map ClaimResult.status
          = some .MANUAL_REVIEW) := by
  unfold performA2AHandshake mkClaimResult isApproved
  constructor
  · by_cases h : r.estimatedCost < APPROVAL_THRESHOLD <;> simp [h]
  · intro h
    simp [h]

/-- Witness for C1: the boundary report with cost exactly 5000 is routed to
MANUAL_REVIEW. -/
theorem approved_iff_cost_below_threshold_witness :
    reportB.estimatedCost = APPROVAL_THRESHOLD
    ∧ (performA2AHandshake reportB clock0 "TOK000000" state0).result.map
        ClaimResult.status = some .MANUAL_REVIEW :=
  ⟨by decide,
   (approved_iff_cost_below_threshold reportB clock0 "TOK000000" state0).2 (by decide)⟩

/-- C2: one run appends exactly its `handshakeLogs` to the transcript; below
the threshold that is 3 entries, at or above it 2 entries and none of them
carries the AP2 payment-protocol tag. -/
theorem transcript_length_by_threshold (r : DamageReport)
    (clock : ℕ → String) (token : String) (s : SessionState) :
    (performA2AHandshake r clock token s).logs = s.logs ++ handshakeLogs r clock
    ∧ (r.estimatedCost < APPROVAL_THRESHOLD → (handshakeLogs r clock).length = 3)
    ∧ (APPROVAL_THRESHOLD ≤ r.estimatedCost →
        (handshakeLogs r clock).length = 2
        ∧ ∀ e ∈ handshakeLogs r clock, e.protocol ≠ Protocol.AP2) := by
  refine ⟨rfl, ?_, ?_⟩
  · intro h
    simp [handshakeLogs, isApproved, h]
  · intro h
    have h' : ¬ r.estimatedCost < APPROVAL_THRESHOLD := not_lt.mpr h
    refine ⟨by simp [handshakeLogs, isApproved, h'], ?_⟩
    intro e he
    simp [handshakeLogs, isApproved, h'] at he
    rcases he with rfl | rfl
    · simp [proposalLog]
    · simp [evaluationLog]

/-- Witness for C2: 3 entries at cost 3200, 2 entries at cost 12000. -/
theorem transcript_length_by_threshold_witness :
    (reportA.estimatedCost < APPROVAL_THRESHOLD
      ∧ (handshakeLogs reportA clock0).length = 3)
    ∧ (APPROVAL_THRESHOLD ≤ reportC.estimatedCost
      ∧ (handshakeLogs reportC clock0).length = 2) :=
  ⟨⟨by decide,
    (transcript_length_by_threshold reportA clock0 "TOK000000" state0).2.1 (by decide)⟩,
   ⟨by decide,
    ((transcript_length_by_threshold reportC clock0 "TOK000000" state0).2.2 (by decide)).1⟩⟩

/-- C3: in the transcript of one run, position 0 is the proposal (SENT, from
the requesting GoogleAgent), position 1 the evaluation (PROCESSED, from the
SalesforceAgent policy agent), position 2 — when present — the settlement
(SENT); and every PROCESSED entry is preceded by a SENT entry from the
opposite agent. -/
theorem transcript_ordering (r : DamageReport) (clock : ℕ → String) :
    ((handshakeLogs r clock)[0]?.map HandshakeLog.status = some .SENT
      ∧ (handshakeLogs r clock)[0]?.map HandshakeLog.fromAgent = some .GoogleAgent)
    ∧ ((handshakeLogs r clock)[1]?.map HandshakeLog.status = some .PROCESSED
      ∧ (handshakeLogs r clock)[1]?.map HandshakeLog.fromAgent = some .SalesforceAgent)
    ∧ (∀ e : HandshakeLog, (handshakeLogs r clock)[2]? = some e → e.status = .SENT)
    ∧ (∀ (i : ℕ) (e : HandshakeLog),
        (handshakeLogs r clock)[i]? = some e → e.status = .PROCESSED →
        ∃ (j : ℕ) (e2 : HandshakeLog), j < i ∧ (handshakeLogs r clock)[j]? = some e2
          ∧ e2.status = .SENT ∧ e2.fromAgent = otherAgent e.fromAgent) := by
  refine ⟨⟨by simp [handshakeLogs]; rfl, by simp [handshakeLogs]; rfl⟩,
    ⟨by simp [handshakeLogs]; rfl, by simp [handshakeLogs]; rfl⟩, ?_, ?_⟩
  · intro e he
    cases h : isApproved r
    · simp [handshakeLogs, h] at he
    · simp [handshakeLogs, h] at he
      subst he
      rfl
  · intro i e he hs
    cases h : isApproved r
    · rcases i with _ | _ | i
      · simp [handshakeLogs, h] at he
        subst he
        simp [proposalLog] at hs
      · simp [handshakeLogs, h] at he
        subst he
        exact ⟨0, proposalLog r (clock 0), by omega, by simp [handshakeLogs], rfl, rfl⟩
      · simp [handshakeLogs, h] at he
    · rcases i with _ | _ | _ | i
      · simp [handshakeLogs, h] at he
        subst he
        simp [proposalLog] at hs
      · simp [handshakeLogs, h] at he
        subst he
        exact ⟨0, proposalLog r (clock 0), by omega, by simp [handshakeLogs], rfl, rfl⟩
      · simp [handshakeLogs, h] at he
        subst he
        simp [settlementLog] at hs
      · simp [handshakeLogs, h] at he

/-- Witness for C3: the third entry of the approved run on `reportA` has
status SENT. -/
theorem transcript_ordering_witness :
    (settlementLog reportA (clock0 2)).status = .SENT :=
  (transcript_ordering reportA clock0).2.2.1 (settlementLog reportA (clock0 2))
    (by decide)

/-- C4: `performA2AHandshake` stores exactly `mkClaimResult`, whose
`paymentInitiated` is true iff its `status` is APPROVED. -/
theorem payment_initiated_iff_approved (r : DamageReport) (clock : ℕ → String)
    (token : String) (s : SessionState) :
    (performA2AHandshake r clock token s).result = some (mkClaimResult r token)
    ∧ ((mkClaimResult r token).paymentInitiated = true
        ↔ (mkClaimResult r token).status = .APPROVED) := by
  refine ⟨rfl, ?_⟩
  unfold mkClaimResult
  cases h : isApproved r <;> simp [h]

/-- C5: `resetWorkflow` from any state yields step IDLE with report,
transcript and result cleared. -/
theorem reset_clears_state (s : SessionState) :
    (resetWorkflow s).step = .IDLE ∧ (resetWorkflow s).report = none
    ∧ (resetWorkflow s).logs = [] ∧ (resetWorkflow s).result = none :=
  ⟨rfl, rfl, rfl, rfl⟩

/-- C6: when the analysis gateway call fails on an upload from a fresh IDLE
session, the step returns to IDLE, the report stays absent, the transcript
stays empty, and the single failure alert is raised. -/
theorem analysis_failure_recovers (dataUrl err : String) (clock : ℕ → String)
    (token : String) (s : SessionState) (h1 : s.step = .IDLE)
    (h2 : s.report = none) (h3 : s.logs = []) :
    (attemptUpload (some dataUrl) (.error err) clock token s).1.step = .IDLE
    ∧ (attemptUpload (some dataUrl) (.error err) clock token s).1.report = none
    ∧ (attemptUpload (some dataUrl) (.error err) clock token s).1.logs = []
    ∧ (attemptUpload (some dataUrl) (.error err) clock token s).2
        = [verificationFailedAlert] := by
  simp [attemptUpload, h1, handleFileUpload, h2, h3]

/-- Witness for C6: the failure scenario run from the fresh state. -/
theorem analysis_failure_recovers_witness :
    (attemptUpload (some "data:url") (.error "unsuitable") clock0 "TOK000000"
        state0).1.step = .IDLE
    ∧ (attemptUpload (some "data:url") (.error "unsuitable") clock0 "TOK000000"
        state0).1.report = none
    ∧ (attemptUpload (some "data:url") (.error "unsuitable") clock0 "TOK000000"
        state0).1.logs = []
    ∧ (attemptUpload (some "data:url") (.error "unsuitable") clock0 "TOK000000"
        state0).2 = [verificationFailedAlert] :=
  analysis_failure_recovers "data:url" "unsuitable" clock0 "TOK000000" state0
    rfl rfl rfl

/-- C7 counterexample: two distinct completed runs whose random tokens
coincide produce two distinct `ClaimResult`s sharing one `referenceId` —
the code does not enforce uniqueness. -/
theorem referenceId_collision_counterexample :
    mkClaimResult reportA "A1B2C3D4E" ≠ mkClaimResult reportC "A1B2C3D4E"
    ∧ (mkClaimResult reportA "A1B2C3D4E").referenceId
        = (mkClaimResult reportC "A1B2C3D4E").referenceId
    ∧ (performA2AHandshake reportA clock0 "A1B2C3D4E" state0).result
        = some (mkClaimResult reportA "A1B2C3D4E")
    ∧ (performA2AHandshake reportC clock0 "A1B2C3D4E" state0).result
        = some (mkClaimResult reportC "A1B2C3D4E") :=
  ⟨by decide, rfl, rfl, rfl⟩

/-- C7 amended: `referenceId` is `CLM-` plus the random token drawn at
completion, so two runs receive distinct referenceIds whenever their random
tokens differ. -/
theorem referenceId_injective_in_token (r1 r2 : DamageReport) (t1 t2 : String)
    (h : t1 ≠ t2) :
    (mkClaimResult r1 t1).referenceId ≠ (mkClaimResult r2 t2).referenceId := by
  intro hc
  apply h
  have hc' : mkReferenceId t1 = mkReferenceId t2 := hc
  unfold mkReferenceId at hc'
  have hd := congrArg String.data hc'
  simp only [String.data_append] at hd
  exact String.ext (List.append_cancel_left hd)

/-- Witness for C7 amended: two distinct tokens give distinct referenceIds. -/
theorem referenceId_injective_in_token_witness :
    "A1B2C3D4E" ≠ "Z9Y8X7W6V"
    ∧ (mkClaimResult reportA "A1B2C3D4E").referenceId
        ≠ (mkClaimResult reportA "Z9Y8X7W6V").referenceId :=
  ⟨by decide,
   referenceId_injective_in_token reportA reportA "A1B2C3D4E" "Z9Y8X7W6V" (by decide)⟩

/-- C8: an upload attempt while the step is not IDLE changes nothing and
raises no alert. -/
theorem upload_not_idle_noop (file : Option String)
    (analysis : Except String DamageReport) (clock : ℕ → String)
    (token : String) (s : SessionState) (h : s.step ≠ .IDLE) :
    attemptUpload file analysis clock token s = (s, []) := by
  simp [attemptUpload, h]

/-- Witness for C8: an upload attempt against a COMPLETED session. -/
theorem upload_not_idle_noop_witness :
    stateCompleted.step ≠ WorkflowStep.IDLE
    ∧ attemptUpload (some "x") (.ok reportC) clock0 "TOK000000" stateCompleted
        = (stateCompleted, []) :=
  ⟨by decide,
   upload_not_idle_noop (some "x") (.ok reportC) clock0 "TOK000000" stateCompleted
     (by decide)⟩

/-- C9: no entry the protocol appends has status RECEIVED — each is SENT or
PROCESSED. -/
theorem no_received_status (r : DamageReport) (clock : ℕ → String) :
    ∀ e ∈ handshakeLogs r clock,
      e.status ≠ .RECEIVED ∧ (e.status = .SENT ∨ e.status = .PROCESSED) := by
  intro e he
  cases h : isApproved r
  · simp [handshakeLogs, h] at he
    rcases he with rfl | rfl
    · exact ⟨by simp [proposalLog], Or.inl rfl⟩
    · exact ⟨by simp [evaluationLog], Or.inr rfl⟩
  · simp [handshakeLogs, h] at he
    rcases he with rfl | rfl | rfl
    · exact ⟨by simp [proposalLog], Or.inl rfl⟩
    · exact ⟨by simp [evaluationLog], Or.inr rfl⟩
    · exact ⟨by simp [settlementLog], Or.inl rfl⟩

/-- Witness for C9: the proposal entry of the run on `reportA`. -/
theorem no_received_status_witness :
    (proposalLog reportA (clock0 0)).status ≠ LogStatus.RECEIVED
    ∧ ((proposalLog reportA (clock0 0)).status = .SENT
        ∨ (proposalLog reportA (clock0 0)).status = .PROCESSED) :=
  no_received_status reportA clock0 (proposalLog reportA (clock0 0)) (by decide)

/-- C10: two reports with equal `estimatedCost` get the same status, the same
`paymentInitiated` flag and the same number of appended transcript entries,
whatever their other fields, clocks, tokens or starting states. -/
theorem disposition_depends_only_on_cost (r1 r2 : DamageReport)
    (clock1 clock2 : ℕ → String) (t1 t2 : String) (s1 s2 : SessionState)
    (h : r1.estimatedCost = r2.estimatedCost) :
    (performA2AHandshake r1 clock1 t1 s1).result.map ClaimResult.status
        = (performA2AHandshake r2 clock2 t2 s2).result.map ClaimResult.status
    ∧ (performA2AHandshake r1 clock1 t1 s1).result.map ClaimResult.paymentInitiated
        = (performA2AHandshake r2 clock2 t2 s2).result.map ClaimResult.paymentInitiated
    ∧ (handshakeLogs r1 clock1).length = (handshakeLogs r2 clock2).length := by
  have hA : isApproved r1 = isApproved r2 := by
    unfold isApproved
    rw [h]
  refine ⟨?_, ?_, ?_⟩
  · simp [performA2AHandshake, mkClaimResult, hA]
  · simp [performA2AHandshake, mkClaimResult, hA]
  · cases h2 : isApproved r2 <;> simp [handshakeLogs, hA, h2]

/-- Witness for C10: `reportA` and `reportA2` share only the cost and get the
same disposition. -/
theorem disposition_depends_only_on_cost_witness :
    reportA.estimatedCost = reportA2.estimatedCost
    ∧ (performA2AHandshake reportA clock0 "TOKA00000" state0).result.map
        ClaimResult.status
      = (performA2AHandshake reportA2 clock0 "TOKB00000" state0).result.map
        ClaimResult.status :=
  ⟨by decide,
   (disposition_depends_only_on_cost reportA reportA2 clock0 clock0
     "TOKA00000" "TOKB00000" state0 state0 (by decide)).1⟩

end EmergencyClaim
